import Mathlib

/-!
Shallow embedding of the workflow-orchestration core of the
`dealmotion-marketing` backend, together with proofs checking the
natural-language specification against the code.

Sources embedded:
- `backend/app/services/database_service.py` — run store
  (`create_pipeline_run`, `update_pipeline_run`, `create_video`,
  `get_pipeline_runs`);
- `backend/app/inngest/functions.py` — the daily pipeline workflow
  function (`daily_content_pipeline_PAUSED`) and the payloads of the
  events it and `generate_video_fn_PAUSED` emit;
- `backend/app/routers/pipeline.py` — the stuck-run sweep
  (`cleanup_stuck_runs`) and operator endpoints.

Modelling conventions: Python dict rows become Lean structures; `None`
becomes `Option.none`; Python truthiness of an optional string is made
explicit (`pyTruthy`); timestamps are seconds since an arbitrary epoch as
`Nat` (the source stores ISO strings and compares `timedelta`s; only
elapsed-seconds comparisons matter to the claims, and the timestamp-parse
failure branch of the sweep is not reachable in this representation);
the `supabase` update-by-id call becomes a pure record update.
-/

/-- Python truthiness of an optional string: `if s:` is true exactly when
the value is present and non-empty. -/
def pyTruthy : Option String → Bool
  | some s => s ≠ ""
  | none => false

/-- Row of the `pipeline_runs` table, as created and updated by
`DatabaseService`.  `started_at` and `completed_at` are seconds since an
arbitrary epoch. -/
structure PipelineRun where
  id : String
  run_date : String
  status : String
  topics_generated : Nat
  scripts_generated : Nat
  videos_created : Nat
  videos_uploaded : Nat
  errors : List String
  started_at : Option Nat
  completed_at : Option Nat
deriving DecidableEq, Repr

/-- The keyword arguments of one call to
`DatabaseService.update_pipeline_run` (database_service.py lines 184-193):
each field is `none` when the Python argument is left at its default
`None`. -/
structure RunUpdate where
  status : Option String := none
  topics_generated : Option Nat := none
  scripts_generated : Option Nat := none
  videos_created : Option Nat := none
  videos_uploaded : Option Nat := none
  errors : Option (List String) := none
deriving DecidableEq, Repr

/-- `update_pipeline_run` puts `completed_at` into the update dict exactly
when `status == "completed" or status == "failed"` (database_service.py
line 208). -/
def updateWritesCompletedAt (u : RunUpdate) : Bool :=
  u.status == some "completed" || u.status == some "failed"

/-- `update_pipeline_run` writes the `status` column exactly when the
`status` argument is truthy (`if status:`, database_service.py line 196). -/
def updateWritesStatus (u : RunUpdate) : Bool :=
  pyTruthy u.status

/-- Effect of `DatabaseService.update_pipeline_run` (database_service.py
lines 184-212) on the addressed row.  Each `if <arg> is not None` guard
becomes `Option.getD`; every written column receives the caller-supplied
value verbatim (the supabase `.update()` call overwrites columns, it is
not an arithmetic delta).  `now` stands for `datetime.utcnow()`. -/
def updatePipelineRun (now : Nat) (u : RunUpdate) (r : PipelineRun) : PipelineRun :=
  { r with
    status := if pyTruthy u.status then u.status.getD r.status else r.status
    topics_generated := u.topics_generated.getD r.topics_generated
    scripts_generated := u.scripts_generated.getD r.scripts_generated
    videos_created := u.videos_created.getD r.videos_created
    videos_uploaded := u.videos_uploaded.getD r.videos_uploaded
    errors := u.errors.getD r.errors
    completed_at :=
      if u.status = some "completed" ∨ u.status = some "failed" then some now
      else r.completed_at }

/-- `DatabaseService.create_pipeline_run` (database_service.py lines
173-182): a fresh row with status `running`, `started_at = now`, and the
table defaults (zero counters, empty error list, no `completed_at`). -/
def createPipelineRun (rid : String) (run_date : String) (now : Nat) : PipelineRun :=
  { id := rid
    run_date := run_date
    status := "running"
    topics_generated := 0
    scripts_generated := 0
    videos_created := 0
    videos_uploaded := 0
    errors := []
    started_at := some now
    completed_at := none }

/-- Row of the `videos` table as built by `DatabaseService.create_video`
(database_service.py lines 93-112). -/
structure Video where
  script_id : Option String
  title : String
  video_url : Option String
  audio_url : Option String
  duration_seconds : Option Rat
  status : String
deriving DecidableEq, Repr

/-- `DatabaseService.create_video` (database_service.py lines 93-112):
the inserted row, whose status is `"ready" if video_url else
"processing"` (line 108). -/
def createVideo (title : String) (script_id : Option String)
    (video_url : Option String) (audio_url : Option String)
    (duration_seconds : Option Rat) : Video :=
  { script_id := script_id
    title := title
    video_url := video_url
    audio_url := audio_url
    duration_seconds := duration_seconds
    status := if pyTruthy video_url then "ready" else "processing" }

/-- C8: for every call to `update_pipeline_run`, `completed_at` is written
(set to now) exactly when the status argument is `completed` or `failed`;
a call that does not set a terminal status leaves `completed_at`
untouched, and a terminal call also writes the status column itself. -/
theorem c8_completed_at_iff_terminal (now : Nat) (u : RunUpdate) (r : PipelineRun) :
    (updateWritesCompletedAt u = true ↔
      (u.status = some "completed" ∨ u.status = some "failed"))
    ∧ (updateWritesCompletedAt u = false →
        (updatePipelineRun now u r).completed_at = r.completed_at)
    ∧ (updateWritesCompletedAt u = true →
        (updatePipelineRun now u r).completed_at = some now
          ∧ updateWritesStatus u = true
          ∧ (updatePipelineRun now u r).status = u.status.getD r.status) := by
  refine ⟨?_, ?_, ?_⟩
  · simp [updateWritesCompletedAt]
  · intro h
    simp only [updateWritesCompletedAt, Bool.or_eq_false_iff] at h
    rcases h with ⟨h1, h2⟩
    have h1' : ¬ u.status = some "completed" := by
      intro hc; rw [hc] at h1; simp at h1
    have h2' : ¬ u.status = some "failed" := by
      intro hc; rw [hc] at h2; simp at h2
    simp [updatePipelineRun, h1', h2']
  · intro h
    simp only [updateWritesCompletedAt, Bool.or_eq_true, beq_iff_eq] at h
    have hterm : u.status = some "completed" ∨ u.status = some "failed" := h
    have htruthy : pyTruthy u.status = true := by
      rcases hterm with h | h <;> simp [pyTruthy, h]
    refine ⟨by simp [updatePipelineRun, hterm], ?_, ?_⟩
    · simp [updateWritesStatus, htruthy]
    · simp [updatePipelineRun, htruthy]

/-- Witness for `c8_completed_at_iff_terminal` at a concrete update and
row. -/
theorem c8_completed_at_iff_terminal_witness :
    (updateWritesCompletedAt { status := some "completed" } = true ↔
      (({ status := some "completed" } : RunUpdate).status = some "completed"
        ∨ ({ status := some "completed" } : RunUpdate).status = some "failed"))
    ∧ (updateWritesCompletedAt { status := some "completed" } = false →
        (updatePipelineRun 7 { status := some "completed" }
          (createPipelineRun "r" "d" 3)).completed_at
          = (createPipelineRun "r" "d" 3).completed_at)
    ∧ (updateWritesCompletedAt { status := some "completed" } = true →
        (updatePipelineRun 7 { status := some "completed" }
          (createPipelineRun "r" "d" 3)).completed_at = some 7
          ∧ updateWritesStatus { status := some "completed" } = true
          ∧ (updatePipelineRun 7 { status := some "completed" }
              (createPipelineRun "r" "d" 3)).status
            = (({ status := some "completed" } : RunUpdate).status.getD
                (createPipelineRun "r" "d" 3).status)) :=
  c8_completed_at_iff_terminal 7 { status := some "completed" }
    (createPipelineRun "r" "d" 3)

/-- C10: a created video record has status `ready` iff a non-empty
`video_url` was supplied, `processing` otherwise, and no other status is
possible at creation. -/
theorem c10_video_status (title : String) (script_id : Option String)
    (video_url : Option String) (audio_url : Option String)
    (duration_seconds : Option Rat) :
    ((createVideo title script_id video_url audio_url duration_seconds).status
        = "ready" ↔ ∃ s, video_url = some s ∧ s ≠ "")
    ∧ ((createVideo title script_id video_url audio_url duration_seconds).status
        = "ready"
      ∨ (createVideo title script_id video_url audio_url duration_seconds).status
        = "processing")
    ∧ (¬ (∃ s, video_url = some s ∧ s ≠ "") →
        (createVideo title script_id video_url audio_url duration_seconds).status
          = "processing") := by
  refine ⟨?_, ?_, ?_⟩
  · constructor
    · intro h
      by_cases ht : pyTruthy video_url = true
      · match video_url, ht with
        | some s, ht =>
          exact ⟨s, rfl, by simpa [pyTruthy] using ht⟩
      · simp [createVideo, ht] at h
    · rintro ⟨s, rfl, hs⟩
      simp [createVideo, pyTruthy, hs]
  · by_cases ht : pyTruthy video_url = true
    · left; simp [createVideo, ht]
    · right; simp [createVideo, ht]
  · intro h
    have ht : pyTruthy video_url = false := by
      match video_url with
      | none => rfl
      | some s =>
        by_cases hs : s = ""
        · simp [pyTruthy, hs]
        · exact absurd ⟨s, rfl, hs⟩ h
    simp [createVideo, ht]

/-- Witness for `c10_video_status` at a concrete creation call. -/
theorem c10_video_status_witness :
    ((createVideo "t" none (some "http://v") none none).status = "ready" ↔
      ∃ s, (some "http://v" : Option String) = some s ∧ s ≠ "")
    ∧ ((createVideo "t" none (some "http://v") none none).status = "ready"
      ∨ (createVideo "t" none (some "http://v") none none).status = "processing")
    ∧ (¬ (∃ s, (some "http://v" : Option String) = some s ∧ s ≠ "") →
        (createVideo "t" none (some "http://v") none none).status = "processing") :=
  c10_video_status "t" none (some "http://v") none none

/-- A topic dict as it flows through `daily_content_pipeline_PAUSED`
(functions.py lines 79-135): only the keys the orchestration reads are
modelled; `id` is optional because `dict.get("id", ...)` supplies a
fallback. -/
structure Topic where
  id : Option String
  title : String
  hashtags : List String
deriving DecidableEq, Repr

/-- A script dict as produced by the script-generation step; only the
keys the orchestration reads are modelled. -/
structure Script where
  title : String
  description : String
  full_text : String
deriving DecidableEq, Repr

/-- Keys of the dict sent as the `marketing/video.generate` event payload
(functions.py lines 120-130), in source order. -/
def videoGenerateEventFields : List String :=
  ["topic", "script", "topic_id", "script_id", "run_id", "upload_after"]

/-- Keys of the dict sent as the `marketing/youtube.upload` event payload
by `generate_video_fn_PAUSED` (functions.py lines 266-276), in source
order. -/
def youtubeUploadEventFields : List String :=
  ["video_url", "video_db_id", "run_id", "title", "description", "tags"]

/-- The `video.generate` payload fields as listed in the specification's
event-contract table (spec refinement target, written from the spec's
words, not from the source). -/
def specVideoGenerateFields : List String :=
  ["idea", "script", "run_id", "script_id", "upload_after"]

/-- The `youtube.upload` payload fields as listed in the specification's
event-contract table (spec refinement target, written from the spec's
words, not from the source). -/
def specYoutubeUploadFields : List String :=
  ["video_url", "video_db_id", "run_id", "title", "description", "tags"]

/-- Step id used to persist a topic: `f"save-topic-{topic.get('id',
'unknown')}"` (functions.py line 82). -/
def saveTopicStepId (topic : Topic) : String :=
  "save-topic-" ++ topic.id.getD "unknown"

/-- Topic identifier used inside the per-topic loop:
`topic.get("id", f"topic_{i}")` (functions.py line 95). -/
def loopTopicId (i : Nat) (topic : Topic) : String :=
  topic.id.getD ("topic_" ++ toString i)

/-- Mutable state of one invocation of `daily_content_pipeline_PAUSED`:
the pipeline-run row being updated through the store, the local
`results["errors"]` list of the function, and the events sent so far
(event name paired with its payload's keys). -/
structure DailyState where
  run : PipelineRun
  resultErrors : List String
  events : List (String × List String)
deriving DecidableEq, Repr

/-- One iteration of the per-topic loop of `daily_content_pipeline_PAUSED`
(functions.py lines 94-135).  `gen i` is the outcome of the
`generate-script-…` step for the i-th topic; the remaining steps of the
`try` body (saving the script, the run update, the event send) are
modelled as non-failing.  On success the loop writes the absolute value
`i + 1` into `scripts_generated` (line 114) and sends the
`marketing/video.generate` event; on failure it appends
`f"Topic {topic_id}: {e}"` to the local results dict (line 135) and the
run row is not touched. -/
def processTopic (gen : Nat → Except String Script) (now : Nat)
    (i : Nat) (topic : Topic) (st : DailyState) : DailyState :=
  match gen i with
  | Except.ok _ =>
      { st with
        run := updatePipelineRun now { scripts_generated := some (i + 1) } st.run
        events := st.events ++ [("marketing/video.generate", videoGenerateEventFields)] }
  | Except.error e =>
      { st with
        resultErrors := st.resultErrors ++
          ["Topic " ++ loopTopicId i topic ++ ": " ++ e] }

/-- The `for i, topic in enumerate(saved_topics)` loop of
`daily_content_pipeline_PAUSED` (functions.py line 94). -/
def processTopics (gen : Nat → Except String Script) (now : Nat) :
    Nat → List Topic → DailyState → DailyState
  | _, [], st => st
  | i, t :: ts, st => processTopics gen now (i + 1) ts (processTopic gen now i t st)

/-- `daily_content_pipeline_PAUSED` (functions.py lines 38-152) on its
non-aborting path: create the run row, record `topics_generated`, run the
per-topic loop (per-topic failures are caught inside the loop), then mark
the run completed (line 140: `update_pipeline_run(run_id,
status="completed")` — note that this final update writes no error list
and no counters).  `topics` is the list returned by the ideation step
(already saved), `gen` the per-index outcome of script generation. -/
def dailyPipeline (rid run_date : String) (now : Nat)
    (topics : List Topic) (gen : Nat → Except String Script) : DailyState :=
  let run0 := createPipelineRun rid run_date now
  let run1 := updatePipelineRun now { topics_generated := some topics.length } run0
  let st := processTopics gen now 0 topics
    { run := run1, resultErrors := [], events := [] }
  { st with run := updatePipelineRun now { status := some "completed" } st.run }

/-- The update issued by the `fail-pipeline-run` step (functions.py line
148): `update_pipeline_run(run_id, status="failed", errors=[str(e)])`. -/
def failPipelineRunUpdate (e : String) : RunUpdate :=
  { status := some "failed", errors := some [e] }

/-- `DatabaseService.get_pipeline_runs` (database_service.py lines
214-217): the `limit` most recent runs; the store is modelled as the list
of all runs in recency order, most recent first. -/
def getPipelineRuns (db : List PipelineRun) (limit : Nat) : List PipelineRun :=
  db.take limit

/-- The error message written by the stuck-run sweep (pipeline.py line
170). -/
def timeoutErrorMessage : String := "Run timed out or was interrupted"

/-- The per-run stuck test of `cleanup_stuck_runs` (pipeline.py lines
154-166): status is `running`, `started_at` is present, and the elapsed
time strictly exceeds `timedelta(minutes=10)` (600 seconds). -/
def stuckCheck (now : Nat) (r : PipelineRun) : Bool :=
  r.status = "running" &&
    (match r.started_at with
     | some t => 600 < now - t
     | none => false)

/-- What the sweep does to one examined run (pipeline.py lines 153-172):
a stuck run receives `update_pipeline_run(id, status="failed",
errors=["Run timed out or was interrupted"])`; any other run is left
alone. -/
def reapRun (now : Nat) (r : PipelineRun) : PipelineRun :=
  if stuckCheck now r then
    updatePipelineRun now
      { status := some "failed", errors := some [timeoutErrorMessage] } r
  else r

/-- `cleanup_stuck_runs` (pipeline.py lines 141-182): fetches the runs
via `get_pipeline_runs(limit=50)`, reaps the stuck ones among them, and
returns the updated store together with `stuck_count`.  Run ids are
assumed distinct, so the store's update-by-id is positional here; runs
beyond the 50 most recent are never fetched and hence never updated. -/
def cleanupStuckRuns (now : Nat) (db : List PipelineRun) :
    List PipelineRun × Nat :=
  let examined := getPipelineRuns db 50
  (examined.map (reapRun now) ++ db.drop 50,
   (examined.filter (stuckCheck now)).length)

/-- Sample script used for concrete scenarios. -/
def sampleScript : Script :=
  { title := "s", description := "", full_text := "hello world" }

/-- Sample topics used for concrete scenarios. -/
def topicA : Topic := { id := some "tA", title := "A", hashtags := ["sales"] }

/-- Second sample topic. -/
def topicB : Topic := { id := some "tB", title := "B", hashtags := [] }

/-- Third sample topic. -/
def topicC : Topic := { id := some "tC", title := "C", hashtags := [] }

/-- Script generation that always succeeds. -/
def genOkConst : Nat → Except String Script := fun _ => Except.ok sampleScript

/-- Script generation that fails exactly for the second topic (index 1). -/
def genFailSecond : Nat → Except String Script :=
  fun i => if i = 1 then Except.error "boom" else Except.ok sampleScript

/-- Helper: when every script-generation step of the remaining topics
succeeds, the per-topic loop leaves `scripts_generated` at the 1-based
index of the last topic (the loop writes the absolute value `i + 1` on
each success). -/
theorem processTopics_all_ok_scripts (gen : Nat → Except String Script)
    (now : Nat) :
    ∀ (ts : List Topic) (i : Nat) (st : DailyState),
      (∀ j, j < ts.length → ∃ s, gen (i + j) = Except.ok s) →
      (processTopics gen now i ts st).run.scripts_generated =
        (if ts.isEmpty then st.run.scripts_generated else i + ts.length) := by
  intro ts
  induction ts with
  | nil => intro i st _; simp [processTopics]
  | cons t ts ih =>
    intro i st hok
    obtain ⟨s0, hs0⟩ := hok 0 (by simp)
    have hok' : ∀ j, j < ts.length → ∃ s, gen (i + 1 + j) = Except.ok s := by
      intro j hj
      have h := hok (j + 1) (by simpa using Nat.succ_lt_succ hj)
      simpa [Nat.add_assoc, Nat.add_comm, Nat.add_left_comm] using h
    have hstep : processTopic gen now i t st =
        { st with
          run := updatePipelineRun now { scripts_generated := some (i + 1) } st.run
          events := st.events ++
            [("marketing/video.generate", videoGenerateEventFields)] } := by
      have hs0' : gen i = Except.ok s0 := by simpa using hs0
      simp [processTopic, hs0']
    simp only [processTopics]
    rw [hstep, ih (i + 1) _ hok']
    cases ts with
    | nil => simp [updatePipelineRun]
    | cons t2 ts2 =>
      simp only [List.isEmpty_cons, List.length_cons, if_neg Bool.false_ne_true]
      omega

/-- C1 (amended): every counter write through `update_pipeline_run` is an
absolute overwrite of the caller-supplied value, not an additive delta;
the daily pipeline's caller supplies `i + 1` at the i-th success, so when
all N script-generation steps of one sequential run succeed the final
`scripts_generated` equals N — but only because the last value written is
N, not because the store adds deltas. -/
theorem c1_counter_overwrite_and_sequential (now : Nat) (r : PipelineRun)
    (v : Nat) (rid rd : String) (topics : List Topic)
    (gen : Nat → Except String Script)
    (hok : ∀ j, j < topics.length → ∃ s, gen j = Except.ok s) :
    ((updatePipelineRun now { scripts_generated := some v } r).scripts_generated = v
      ∧ (updatePipelineRun now { videos_created := some v } r).videos_created = v
      ∧ (updatePipelineRun now { videos_uploaded := some v } r).videos_uploaded = v)
    ∧ (dailyPipeline rid rd now topics gen).run.scripts_generated
        = topics.length := by
  refine ⟨⟨rfl, rfl, rfl⟩, ?_⟩
  have h := processTopics_all_ok_scripts gen now topics 0
    { run := updatePipelineRun now { topics_generated := some topics.length }
        (createPipelineRun rid rd now)
      resultErrors := []
      events := [] } (by simpa using hok)
  simp only [dailyPipeline, updatePipelineRun] at h ⊢
  rw [h]
  cases topics with
  | nil => simp [createPipelineRun]
  | cons t ts => simp

/-- Witness for `c1_counter_overwrite_and_sequential` at a concrete row,
value, and a one-topic run whose script generation succeeds. -/
theorem c1_counter_overwrite_and_sequential_witness :
    ((updatePipelineRun 5 { scripts_generated := some 4 }
        (createPipelineRun "w" "d" 0)).scripts_generated = 4
      ∧ (updatePipelineRun 5 { videos_created := some 4 }
          (createPipelineRun "w" "d" 0)).videos_created = 4
      ∧ (updatePipelineRun 5 { videos_uploaded := some 4 }
          (createPipelineRun "w" "d" 0)).videos_uploaded = 4)
    ∧ (dailyPipeline "w" "d" 5 [topicA] genOkConst).run.scripts_generated
        = [topicA].length :=
  c1_counter_overwrite_and_sequential 5 (createPipelineRun "w" "d" 0) 4 "w" "d"
    [topicA] genOkConst (fun _ _ => ⟨sampleScript, rfl⟩)

/-- C1 counterexample: the store's update is not an additive delta.  A row
whose `videos_created` is 5, updated with `videos_created=1` (exactly the
call issued by the `update-run-videos` step, functions.py line 258), ends
at 1, not 5 + 1. -/
theorem c1_delta_counterexample :
    (updatePipelineRun 9 { videos_created := some 1 }
      { createPipelineRun "r" "d" 0 with videos_created := 5 }).videos_created = 1
    ∧ (1 : Nat) ≠ 5 + 1 := by
  exact ⟨rfl, by decide⟩

/-- C2 (amended): with 3 ideas whose script generation fails only for
idea #2, the daily pipeline continues and ends with status `completed`,
but `scripts_generated` ends at 3 (the loop writes the 1-based index of
each successful topic, so the third topic's success writes 3), the one
error referencing idea #2 lands only in the function's local results
dict, and the run record's error list stays empty (the completion update
writes no errors). -/
theorem c2_partial_failure_continuation (rid rd : String) (now : Nat)
    (t0 t1 t2 : Topic) (gen : Nat → Except String Script)
    (s0 s2 : Script) (e : String)
    (h0 : gen 0 = Except.ok s0) (h1 : gen 1 = Except.error e)
    (h2 : gen 2 = Except.ok s2) :
    (dailyPipeline rid rd now [t0, t1, t2] gen).run.status = "completed"
    ∧ (dailyPipeline rid rd now [t0, t1, t2] gen).run.scripts_generated = 3
    ∧ (dailyPipeline rid rd now [t0, t1, t2] gen).resultErrors
        = ["Topic " ++ loopTopicId 1 t1 ++ ": " ++ e]
    ∧ (dailyPipeline rid rd now [t0, t1, t2] gen).run.errors = [] := by
  simp only [dailyPipeline, processTopics, processTopic, h0, h1, h2]
  exact ⟨rfl, rfl, rfl, rfl⟩

/-- Witness for `c2_partial_failure_continuation` at the concrete
three-topic scenario where the second script generation throws. -/
theorem c2_partial_failure_continuation_witness :
    (dailyPipeline "r" "d" 0 [topicA, topicB, topicC] genFailSecond).run.status
        = "completed"
    ∧ (dailyPipeline "r" "d" 0 [topicA, topicB, topicC]
        genFailSecond).run.scripts_generated = 3
    ∧ (dailyPipeline "r" "d" 0 [topicA, topicB, topicC] genFailSecond).resultErrors
        = ["Topic " ++ loopTopicId 1 topicB ++ ": " ++ "boom"]
    ∧ (dailyPipeline "r" "d" 0 [topicA, topicB, topicC] genFailSecond).run.errors
        = [] :=
  c2_partial_failure_continuation "r" "d" 0 topicA topicB topicC genFailSecond
    sampleScript sampleScript "boom" rfl rfl rfl

/-- C2 counterexample: in the concrete 3-idea scenario with idea #2
failing, the run ends completed but with `scripts_generated = 3`, not 2,
and the run record's error list is empty — the single error referencing
idea #2 exists only in the function's local results dict. -/
theorem c2_counterexample :
    (dailyPipeline "r" "d" 0 [topicA, topicB, topicC]
        genFailSecond).run.scripts_generated = 3
    ∧ (3 : Nat) ≠ 2
    ∧ (dailyPipeline "r" "d" 0 [topicA, topicB, topicC] genFailSecond).run.errors
        = []
    ∧ (dailyPipeline "r" "d" 0 [topicA, topicB, topicC] genFailSecond).run.status
        = "completed"
    ∧ (dailyPipeline "r" "d" 0 [topicA, topicB, topicC] genFailSecond).resultErrors
        = ["Topic tB: boom"] := by
  exact ⟨rfl, by decide, rfl, rfl, rfl⟩

/-- C3 (amended): an error write through `update_pipeline_run` replaces
the whole `errors` column with the caller-supplied list; recording E1 and
then E2 the way the code's own error-writing paths do (each call supplies
only its own error, as in the `fail-pipeline-run` step) leaves the list at
`[E2]`, dropping E1. -/
theorem c3_error_write_replaces (now1 now2 : Nat) (r : PipelineRun)
    (e1 e2 : String) :
    (∀ es : List String,
      (updatePipelineRun now1 { errors := some es } r).errors = es)
    ∧ (updatePipelineRun now1 (failPipelineRunUpdate e1) r).errors = [e1]
    ∧ (updatePipelineRun now2 (failPipelineRunUpdate e2)
        (updatePipelineRun now1 (failPipelineRunUpdate e1) r)).errors = [e2] :=
  ⟨fun _ => rfl, rfl, rfl⟩

/-- C3 counterexample: recording E1 and then E2 on a fresh run via the
code's error-writing update leaves the error list at `["E2"]`, which is
not `["E1", "E2"]` — E1 has been replaced, refuting append-order
accumulation. -/
theorem c3_counterexample :
    (updatePipelineRun 6 (failPipelineRunUpdate "E2")
      (updatePipelineRun 5 (failPipelineRunUpdate "E1")
        (createPipelineRun "r" "d" 0))).errors = ["E2"]
    ∧ (["E2"] : List String) ≠ ["E1", "E2"] := by
  exact ⟨rfl, by decide⟩

/-- Sample terminal (failed) run used in concrete scenarios. -/
def failedRunSample : PipelineRun :=
  { createPipelineRun "f" "d" 0 with status := "failed", completed_at := some 2 }

/-- C4 (amended): the run store's update has no terminal-state guard — an
update is applied to a run in a terminal status exactly as to a running
one, so a terminal run is mutable through the ordinary (non-operator)
writer paths; in particular the pipeline's own completion write
(`update_pipeline_run(run_id, status="completed")`) flips a failed run
back to completed. -/
theorem c4_no_terminal_guard (now : Nat) (u : RunUpdate) (r : PipelineRun)
    (_hterm : r.status = "completed" ∨ r.status = "failed") :
    ((updatePipelineRun now u r).scripts_generated
        = u.scripts_generated.getD r.scripts_generated)
    ∧ ((updatePipelineRun now u r).errors = u.errors.getD r.errors)
    ∧ (pyTruthy u.status = true →
        (updatePipelineRun now u r).status = u.status.getD r.status)
    ∧ (r.status = "failed" →
        (updatePipelineRun now { status := some "completed" } r).status
          = "completed") := by
  refine ⟨rfl, rfl, ?_, fun _ => rfl⟩
  intro h
  simp [updatePipelineRun, h]

/-- Witness for `c4_no_terminal_guard` at a concrete failed run and a
concrete counter update. -/
theorem c4_no_terminal_guard_witness :
    ((updatePipelineRun 9 { scripts_generated := some 7 }
        failedRunSample).scripts_generated
      = ({ scripts_generated := some 7 } : RunUpdate).scripts_generated.getD
          failedRunSample.scripts_generated)
    ∧ ((updatePipelineRun 9 { scripts_generated := some 7 } failedRunSample).errors
      = ({ scripts_generated := some 7 } : RunUpdate).errors.getD
          failedRunSample.errors)
    ∧ (pyTruthy ({ scripts_generated := some 7 } : RunUpdate).status = true →
        (updatePipelineRun 9 { scripts_generated := some 7 } failedRunSample).status
          = ({ scripts_generated := some 7 } : RunUpdate).status.getD
              failedRunSample.status)
    ∧ (failedRunSample.status = "failed" →
        (updatePipelineRun 9 { status := some "completed" } failedRunSample).status
          = "completed") :=
  c4_no_terminal_guard 9 { scripts_generated := some 7 } failedRunSample
    (Or.inr rfl)

/-- C4 counterexample: a run already in the terminal status `failed`,
hit by the pipeline's ordinary completion write (not an operator
endpoint), is changed to `completed` rather than being rejected or
ignored — a failed→completed transition without operator override. -/
theorem c4_counterexample :
    failedRunSample.status = "failed"
    ∧ (updatePipelineRun 9 { status := some "completed" } failedRunSample).status
        = "completed"
    ∧ updatePipelineRun 9 { status := some "completed" } failedRunSample
        ≠ failedRunSample := by
  refine ⟨rfl, rfl, by decide⟩

/-- C5 (amended): the sweep examines only the 50 most recent runs (the
store query is issued with `limit=50`); every examined running run whose
elapsed time strictly exceeds 600 seconds is transitioned to failed with
its error list set to exactly `["Run timed out or was interrupted"]` and
`completed_at` stamped, every non-stuck run is left untouched, and the
returned count is the number of examined stuck runs; runs beyond the 50
most recent are never updated. -/
theorem c5_sweep_examines_fifty (now : Nat) (db : List PipelineRun) :
    ((cleanupStuckRuns now db).1
        = (db.take 50).map (reapRun now) ++ db.drop 50)
    ∧ ((cleanupStuckRuns now db).2
        = ((db.take 50).filter (stuckCheck now)).length)
    ∧ (∀ r t, r.status = "running" → r.started_at = some t → 600 < now - t →
        stuckCheck now r = true
        ∧ (reapRun now r).status = "failed"
        ∧ (reapRun now r).errors = [timeoutErrorMessage]
        ∧ (reapRun now r).completed_at = some now)
    ∧ (∀ r, stuckCheck now r = false → reapRun now r = r) := by
  refine ⟨rfl, rfl, ?_, ?_⟩
  · intro r t hs ht hel
    have hch : stuckCheck now r = true := by
      simp [stuckCheck, hs, ht]
      exact hel
    have hre : reapRun now r = updatePipelineRun now
        { status := some "failed", errors := some [timeoutErrorMessage] } r := by
      simp [reapRun, hch]
    refine ⟨hch, ?_, ?_, ?_⟩ <;> rw [hre] <;> rfl
  · intro r h
    simp [reapRun, h]

/-- Witness for `c5_sweep_examines_fifty` at a concrete moment and a
concrete store. -/
theorem c5_sweep_examines_fifty_witness :
    ((cleanupStuckRuns 1000 [failedRunSample]).1
        = ([failedRunSample].take 50).map (reapRun 1000)
            ++ [failedRunSample].drop 50)
    ∧ ((cleanupStuckRuns 1000 [failedRunSample]).2
        = (([failedRunSample].take 50).filter (stuckCheck 1000)).length)
    ∧ (∀ r t, r.status = "running" → r.started_at = some t → 600 < 1000 - t →
        stuckCheck 1000 r = true
        ∧ (reapRun 1000 r).status = "failed"
        ∧ (reapRun 1000 r).errors = [timeoutErrorMessage]
        ∧ (reapRun 1000 r).completed_at = some 1000)
    ∧ (∀ r, stuckCheck 1000 r = false → reapRun 1000 r = r) :=
  c5_sweep_examines_fifty 1000 [failedRunSample]

/-- A long-stuck running run that is older than the 50 most recent runs in
`crowdedStore`. -/
def oldStuckRun : PipelineRun := createPipelineRun "old" "d" 0

/-- A store holding 50 recent completed runs followed by `oldStuckRun`,
which the sweep's `limit=50` query never returns. -/
def crowdedStore : List PipelineRun :=
  (List.range 50).map
    (fun i => { createPipelineRun (toString i) "d" 9000 with
                status := "completed", completed_at := some 9500 })
    ++ [oldStuckRun]

/-- C5 counterexample: with 51 runs in the store, a running run stuck
since the epoch — well past the 10-minute threshold at time 10000 — is
not examined by the sweep because it is not among the 50 most recent
runs: the sweep reaps nothing and the stuck run is still `running`
afterwards. -/
theorem c5_counterexample :
    oldStuckRun.status = "running"
    ∧ stuckCheck 10000 oldStuckRun = true
    ∧ oldStuckRun ∈ crowdedStore
    ∧ (cleanupStuckRuns 10000 crowdedStore).2 = 0
    ∧ oldStuckRun ∈ (cleanupStuckRuns 10000 crowdedStore).1 := by
  refine ⟨rfl, rfl, ?_, ?_, ?_⟩ <;> decide

/-- The row a reap write produces: the run with status `failed`, the
error list set to exactly the timeout message, and `completed_at`
stamped; all other columns keep their values. -/
def reapedRow (now : Nat) (r : PipelineRun) : PipelineRun :=
  { r with
    status := "failed"
    errors := [timeoutErrorMessage]
    completed_at := some now }

/-- C6 (amended): a running run examined by the sweep with elapsed time
599 seconds is not reaped (the store and count are untouched); with
elapsed time 601 seconds it is transitioned to failed with its error list
set to exactly `["Run timed out or was interrupted"]` and counted — this
write replaces the previous error list, so it coincides with appending
one error exactly when the prior list was empty. -/
theorem c6_reaper_threshold (r : PipelineRun) (t now : Nat)
    (hs : r.status = "running") (ht : r.started_at = some t) :
    (now - t = 599 → cleanupStuckRuns now [r] = ([r], 0))
    ∧ (now - t = 601 →
        (cleanupStuckRuns now [r]).1 = [reapedRow now r]
        ∧ (cleanupStuckRuns now [r]).2 = 1
        ∧ (r.errors = [] →
            (reapedRow now r).errors = r.errors ++ [timeoutErrorMessage])) := by
  constructor
  · intro h599
    have hch : stuckCheck now r = false := by
      simp [stuckCheck, hs, ht, h599]
    simp [cleanupStuckRuns, getPipelineRuns, reapRun, hch]
  · intro h601
    have hch : stuckCheck now r = true := by
      simp [stuckCheck, hs, ht, h601]
    have hre : reapRun now r = reapedRow now r := by
      simp only [reapRun, hch, if_true]
      rfl
    refine ⟨?_, ?_, fun he => by simp [reapedRow, he]⟩
    · simp [cleanupStuckRuns, getPipelineRuns, hre]
    · simp [cleanupStuckRuns, getPipelineRuns, hch]

/-- Witness for `c6_reaper_threshold` at a concrete running run started
at time 0 observed at time 601. -/
theorem c6_reaper_threshold_witness :
    (601 - 0 = 599 →
      cleanupStuckRuns 601 [createPipelineRun "w6" "d" 0]
        = ([createPipelineRun "w6" "d" 0], 0))
    ∧ (601 - 0 = 601 →
        (cleanupStuckRuns 601 [createPipelineRun "w6" "d" 0]).1
          = [reapedRow 601 (createPipelineRun "w6" "d" 0)]
        ∧ (cleanupStuckRuns 601 [createPipelineRun "w6" "d" 0]).2 = 1
        ∧ ((createPipelineRun "w6" "d" 0).errors = [] →
            (reapedRow 601 (createPipelineRun "w6" "d" 0)).errors
              = (createPipelineRun "w6" "d" 0).errors ++ [timeoutErrorMessage])) :=
  c6_reaper_threshold (createPipelineRun "w6" "d" 0) 0 601 rfl rfl

/-- A running run that already carries an earlier error. -/
def priorErrorRun : PipelineRun :=
  { createPipelineRun "p" "d" 0 with errors := ["earlier failure"] }

/-- C6 counterexample: reaping a stuck running run that already had one
recorded error leaves its error list at exactly
`["Run timed out or was interrupted"]` — the earlier error is gone, so
the reap did not append exactly one error to the run's error list. -/
theorem c6_counterexample :
    priorErrorRun.status = "running"
    ∧ stuckCheck 601 priorErrorRun = true
    ∧ ((cleanupStuckRuns 601 [priorErrorRun]).1.map PipelineRun.errors
        = [[timeoutErrorMessage]])
    ∧ [[timeoutErrorMessage]]
        ≠ [priorErrorRun.errors ++ [timeoutErrorMessage]] := by
  refine ⟨rfl, rfl, rfl, by decide⟩

/-- Helper: every event the per-topic loop adds to the state is the
`marketing/video.generate` event carrying the source's payload keys. -/
theorem processTopics_events_shape (gen : Nat → Except String Script)
    (now : Nat) :
    ∀ (ts : List Topic) (i : Nat) (st : DailyState) (ev : String × List String),
      ev ∈ (processTopics gen now i ts st).events →
      ev ∈ st.events
        ∨ ev = ("marketing/video.generate", videoGenerateEventFields) := by
  intro ts
  induction ts with
  | nil => intro i st ev h; exact Or.inl h
  | cons t ts ih =>
    intro i st ev h
    rcases ih (i + 1) (processTopic gen now i t st) ev h with h' | h'
    · cases hgen : gen i with
      | error e =>
        simp only [processTopic, hgen] at h'
        exact Or.inl h'
      | ok s =>
        simp only [processTopic, hgen, List.mem_append, List.mem_singleton] at h'
        rcases h' with h' | h'
        · exact Or.inl h'
        · exact Or.inr h'
    · exact Or.inr h'

/-- C7 (amended): every event emitted by the daily pipeline is the
`marketing/video.generate` event and its payload carries exactly the
fields topic, script, topic_id, script_id, run_id, upload_after (so an
`idea` field does not exist and `topic_id` is an extra field relative to
the spec's table), while the `youtube.upload` publish event emitted by
the video-generation function carries exactly the fields the spec lists:
video_url, video_db_id, run_id, title, description, tags. -/
theorem c7_event_payload_fields (rid rd : String) (now : Nat)
    (topics : List Topic) (gen : Nat → Except String Script)
    (ev : String × List String)
    (hev : ev ∈ (dailyPipeline rid rd now topics gen).events) :
    ev = ("marketing/video.generate", videoGenerateEventFields)
    ∧ videoGenerateEventFields
        = ["topic", "script", "topic_id", "script_id", "run_id", "upload_after"]
    ∧ youtubeUploadEventFields = specYoutubeUploadFields := by
  refine ⟨?_, rfl, rfl⟩
  have hev' : ev ∈ (processTopics gen now 0 topics
      { run := updatePipelineRun now { topics_generated := some topics.length }
          (createPipelineRun rid rd now)
        resultErrors := []
        events := [] }).events := by
    simpa [dailyPipeline] using hev
  rcases processTopics_events_shape gen now topics 0 _ ev hev' with h | h
  · simp at h
  · exact h

/-- Witness for `c7_event_payload_fields` at a concrete one-topic run
that emits the event. -/
theorem c7_event_payload_fields_witness :
    ("marketing/video.generate", videoGenerateEventFields)
        = ("marketing/video.generate", videoGenerateEventFields)
    ∧ videoGenerateEventFields
        = ["topic", "script", "topic_id", "script_id", "run_id", "upload_after"]
    ∧ youtubeUploadEventFields = specYoutubeUploadFields :=
  c7_event_payload_fields "r" "d" 0 [topicA] genOkConst
    ("marketing/video.generate", videoGenerateEventFields) (by decide)

/-- C7 counterexample: the spec's field list for `video.generate` names a
field `idea` that the emitted payload does not carry, and the payload
carries a field `topic_id` absent from the spec's list — shown on an
event actually emitted by a concrete run. -/
theorem c7_counterexample :
    "idea" ∈ specVideoGenerateFields
    ∧ "idea" ∉ videoGenerateEventFields
    ∧ "topic_id" ∈ videoGenerateEventFields
    ∧ "topic_id" ∉ specVideoGenerateFields
    ∧ ("marketing/video.generate", videoGenerateEventFields)
        ∈ (dailyPipeline "r" "d" 0 [topicA] genOkConst).events := by
  refine ⟨?_, ?_, ?_, ?_, ?_⟩ <;> decide

/-- C9: the step id used to persist a topic depends only on the topic's
`id` field (with fallback `save-topic-unknown` when the field is absent),
so two distinct topics lacking an `id` are submitted under the identical
step id — step-id uniqueness within a run is not guaranteed by the
caller. -/
theorem c9_save_topic_step_id (t1 t2 : Topic) (h : t1.id = t2.id) :
    saveTopicStepId t1 = saveTopicStepId t2
    ∧ (t1.id = none → saveTopicStepId t1 = "save-topic-unknown")
    ∧ ∃ u1 u2 : Topic, u1 ≠ u2 ∧ u1.id = none ∧ u2.id = none
        ∧ saveTopicStepId u1 = saveTopicStepId u2 := by
  refine ⟨by simp [saveTopicStepId, h], ?_, ?_⟩
  · intro h1
    simp [saveTopicStepId, h1]
  · exact ⟨{ id := none, title := "a", hashtags := [] },
           { id := none, title := "b", hashtags := [] },
           by decide, rfl, rfl, rfl⟩

/-- Witness for `c9_save_topic_step_id` at a concrete pair of topics with
the same `id`. -/
theorem c9_save_topic_step_id_witness :
    saveTopicStepId topicA = saveTopicStepId topicA
    ∧ (topicA.id = none → saveTopicStepId topicA = "save-topic-unknown")
    ∧ ∃ u1 u2 : Topic, u1 ≠ u2 ∧ u1.id = none ∧ u2.id = none
        ∧ saveTopicStepId u1 = saveTopicStepId u2 :=
  c9_save_topic_step_id topicA topicA rfl
